import Mathlib

/-!
Verification of the command-orchestration engine of
`plugins/modules/idrac_redfish_storage_controller.py`.

Each Ansible-module handler is embedded as a pure Lean function from the
module parameters (check-mode flag, command, targets) and a snapshot of the
remote system state (the data the handler reads over HTTP) to an `Outcome`
describing the single externally observable effect of the invocation:
either an `exit_json`/`fail_json` call, or the asynchronous action POST
(respectively the settings PATCH) together with its payload.
-/

namespace IdracStorage

/-! ## Message constants (verbatim from the module source) -/

def CHANGES_FOUND : String := "Changes found to be applied."

def NO_CHANGES_FOUND : String := "No changes found to be applied."

def PHYSICAL_DISK_ERR : String := "Volume is not encryption capable."

/-- `TARGET_ERR_MSG.format(t)` from the source. -/
def TARGET_ERR_MSG (t : String) : String :=
  "The Fully Qualified Device Descriptor (FQDD) of the target " ++ t ++ " must be only one."

/-- `PD_ERROR_MSG.format(id)` from the source. -/
def PD_ERROR_MSG (id : String) : String :=
  "Unable to locate the physical disk with the ID: " ++ id

/-- `VD_ERROR_MSG.format(id)` from the source. -/
def VD_ERROR_MSG (id : String) : String :=
  "Unable to locate the virtual disk with the ID: " ++ id

/-- `ENCRYPT_ERR_MSG.format(cid)` from the source (`\x27` is an ASCII quote). -/
def ENCRYPT_ERR_MSG (cid : String) : String :=
  "The storage controller \x27" ++ cid ++ "\x27 does not support encryption."

/-- `OCE_RAID_TYPE_ERR.format(rt)` from the source. -/
def OCE_RAID_TYPE_ERR (rt : String) : String :=
  "Online Capacity Expansion is not supported for " ++ rt ++ " virtual disks."

/-- `OCE_SIZE_100MB.format(mb)` from the source; `mb` is the current size in MB. -/
def OCE_SIZE_100MB (mb : Nat) : String :=
  "Minimum Online Capacity Expansion size must be greater than 100 MB of the current size "
    ++ toString mb ++ "."

def OCE_TARGET_EMPTY : String := "Provided list of targets is empty."

def OCE_TARGET_RAID1_ERR : String := "Cannot add more than two disks to RAID1 virtual disk."

/-- `UNSUPPORTED_APPLY_TIME.format(t)` from the source. -/
def UNSUPPORTED_APPLY_TIME (t : String) : String :=
  "Apply time " ++ t ++ " is not supported."

/-- `MAINTENANCE_OFFSET.format(off)` from the source. -/
def MAINTENANCE_OFFSET (off : String) : String :=
  "The maintenance time must be post-fixed with local offset to " ++ off ++ "."

def MAINTENANCE_TIME : String :=
  "The specified maintenance time window occurs in the past, "
    ++ "provide a future time to schedule the maintenance window."

def HBA_MODE : String :=
  "Other attributes cannot be updated when ControllerMode is provided as input."

/-- Python `str` of a list of strings, as produced by `"{0}".format(list)`. -/
def pyStrList (xs : List String) : String :=
  "[" ++ String.intercalate ", " (xs.map (fun x => "\x27" ++ x ++ "\x27")) ++ "]"

/-- `INVALID_ATTRIBUTES.format(invalid_attr)` from the source, where
`invalid_attr` is the Python list of offending attribute names. -/
def INVALID_ATTRIBUTES (names : List String) : String :=
  "The following attributes are invalid: " ++ pyStrList names

/-- `JOB_SUBMISSION.format(op)` from the source. -/
def JOB_SUBMISSION (op : String) : String :=
  "Successfully submitted the job that performs the \x27" ++ op ++ "\x27 operation."

/-- `JOB_COMPLETION.format(op)` from the source. -/
def JOB_COMPLETION (op : String) : String :=
  "Successfully performed the \x27" ++ op ++ "\x27 operation."

/-- Python `str` of a `KeyError` carrying the missing key. -/
def pyKeyError (k : String) : String := "\x27" ++ k ++ "\x27"

/-! ## Values and outcomes -/

/-- A JSON-ish payload value: string, integer, list of strings, or null. -/
inductive JVal where
  | s : String → JVal
  | i : Int → JVal
  | l : List String → JVal
  | null : JVal
deriving DecidableEq, Repr

/-- The single externally observable effect of one handler invocation.

* `exit msg changed failed` — `module.exit_json` / `module.fail_json`
  (for `fail_json`, `failed = true`);
* `statusExit status_msg` — `module.exit_json(failed=True, status_msg=...)`,
  used by the maintenance-window validation;
* `post action payload` — the asynchronous
  `POST .../DellRaidService.{action}` action submission;
* `patch pending time_set` — the controller-settings `PATCH` whose body is
  `{"Oem": {"Dell": {"DellStorageController": pending}}}` plus, when
  `time_set` is nonempty, `"@Redfish.SettingsApplyTime": time_set`;
* `crash exc` — an uncaught Python exception of class `exc` propagating out
  of the module (one not listed in the `except` clauses of `main`). -/
inductive Outcome where
  | exit (msg : String) (changed failed : Bool)
  | statusExit (status_msg : String)
  | post (action : String) (payload : List (String × JVal))
  | patch (pending : List (String × String)) (time_set : List (String × JVal))
  | crash (exc : String)
deriving DecidableEq, Repr

/-- `true` exactly on the action-POST outcomes. -/
def Outcome.isPost : Outcome → Bool
  | .post _ _ => true
  | _ => false

/-- Option value as a JSON payload value (`None` becomes `null`). -/
def optVal : Option String → JVal
  | some v => JVal.s v
  | none => JVal.null

/-! ## Remote-state snapshots -/

/-- The controller fields read by `ctrl_key`:
`SecurityStatus` and `KeyID` of the `DellController` resource
(`KeyID` is nullable in the Redfish payload). -/
structure CtrlSnapshot where
  securityStatus : String
  keyId : Option String
deriving DecidableEq, Repr

/-- The physical-disk fields read by `hot_spare_config` (`HotspareType`)
and `change_pd_status` / `convert_raid_status`
(`Oem.Dell.DellPhysicalDisk.RaidStatus`). -/
structure PDSnapshot where
  hotspareType : String
  raidStatus : String
deriving DecidableEq, Repr

/-- The volume fields read by `lock_virtual_disk` and
`online_capacity_expansion`: `RAIDType`, the Dell OEM `LockStatus`,
`CapacityBytes`, the member-drive ids (the trailing path segment of each
`Links.Drives[*]["@odata.id"]`; empty when `Links` is absent) and the
`EncryptionAbility` of each linked drive, in link order. -/
structure VolumeSnapshot where
  raidType : String
  lockStatus : String
  capacityBytes : Nat
  memberDrives : List String
  memberEncryption : List String
deriving DecidableEq, Repr

/-! ## Command handlers -/

/-- `ctrl_key(module, redfish_obj)` from the source, for
`command ∈ {SetControllerKey, ReKey, RemoveControllerKey,
EnableControllerEncryption}`.  `checkMode` is `module.check_mode`;
`ctrl` is the controller snapshot fetched at the top of the function.
The leading `check_id_exists` resolution is assumed to have succeeded
(the controller exists); a controller whose `SecurityStatus` is
`EncryptionNotCapable` fails before any idempotency check. -/
def ctrl_key (checkMode : Bool) (command mode controller_id : String)
    (key key_id old_key : Option String) (ctrl : CtrlSnapshot) : Outcome :=
  if ctrl.securityStatus = "EncryptionNotCapable" then
    .exit (ENCRYPT_ERR_MSG controller_id) false true
  else if command = "SetControllerKey" then
    if checkMode ∧ ctrl.keyId = none then
      .exit CHANGES_FOUND true false
    else if (checkMode ∧ ctrl.keyId ≠ none) ∨ (¬checkMode ∧ ctrl.keyId ≠ none) then
      .exit NO_CHANGES_FOUND false false
    else
      .post command [("TargetFQDD", JVal.s controller_id), ("Key", optVal key),
                     ("Keyid", optVal key_id)]
  else if command = "ReKey" then
    if checkMode then
      .exit CHANGES_FOUND true false
    else if mode = "LKM" then
      .post command [("TargetFQDD", JVal.s controller_id), ("Mode", JVal.s mode),
                     ("NewKey", optVal key), ("Keyid", optVal key_id),
                     ("OldKey", optVal old_key)]
    else
      .post command [("TargetFQDD", JVal.s controller_id), ("Mode", JVal.s mode)]
  else if command = "RemoveControllerKey" then
    if checkMode ∧ ctrl.keyId ≠ none then
      .exit CHANGES_FOUND true false
    else if (checkMode ∧ ctrl.keyId = none) ∨ (¬checkMode ∧ ctrl.keyId = none) then
      .exit NO_CHANGES_FOUND false false
    else
      .post command [("TargetFQDD", JVal.s controller_id)]
  else if command = "EnableControllerEncryption" then
    if checkMode ∧ ¬(ctrl.securityStatus = "SecurityKeyAssigned") then
      .exit CHANGES_FOUND true false
    else if (checkMode ∧ ctrl.securityStatus = "SecurityKeyAssigned") ∨
        (¬checkMode ∧ ctrl.securityStatus = "SecurityKeyAssigned") then
      .exit NO_CHANGES_FOUND false false
    else if mode = "LKM" then
      .post command [("TargetFQDD", JVal.s controller_id), ("Mode", JVal.s mode),
                     ("Key", optVal key), ("Keyid", optVal key_id)]
    else
      .post command [("TargetFQDD", JVal.s controller_id), ("Mode", JVal.s mode)]
  else
    .post command []

/-- `hot_spare_config(module, redfish_obj)` from the source, for
`command ∈ {AssignSpare, UnassignSpare}`.  `drive_id` is `target[0]`;
`pd = none` models the `HTTPError` branch of the drive GET. -/
def hot_spare_config (checkMode : Bool) (command drive_id : String)
    (volume : Option (List String)) (pd : Option PDSnapshot) : Outcome :=
  match pd with
  | none => .exit (PD_ERROR_MSG drive_id) false true
  | some pd =>
    if (checkMode ∧ pd.hotspareType = "None" ∧ command = "AssignSpare") ∨
        (checkMode ∧ ¬(pd.hotspareType = "None") ∧ command = "UnassignSpare") then
      .exit CHANGES_FOUND true false
    else if (checkMode ∧ (pd.hotspareType = "Dedicated" ∨ pd.hotspareType = "Global") ∧
              command = "AssignSpare") ∨
        (¬checkMode ∧ (pd.hotspareType = "Dedicated" ∨ pd.hotspareType = "Global") ∧
              command = "AssignSpare") ∨
        (checkMode ∧ pd.hotspareType = "None" ∧ command = "UnassignSpare") ∨
        (¬checkMode ∧ pd.hotspareType = "None" ∧ command = "UnassignSpare") then
      .exit NO_CHANGES_FOUND false false
    else
      match volume with
      | some vol =>
        if command = "AssignSpare" then
          .post command [("TargetFQDD", JVal.s drive_id), ("VirtualDiskArray", JVal.l vol)]
        else
          .post command [("TargetFQDD", JVal.s drive_id)]
      | none => .post command [("TargetFQDD", JVal.s drive_id)]

/-- `convert_raid_status(module, redfish_obj)` from the source, for
`command ∈ {ConvertToRAID, ConvertToNonRAID}`.  `pd_ready_state` is the list
of `RaidStatus` values fetched for the targets (all GETs assumed to
succeed). -/
def convert_raid_status (checkMode : Bool) (command : String) (target : List String)
    (pd_ready_state : List String) : Outcome :=
  if (command = "ConvertToRAID" ∧ checkMode ∧ 0 < pd_ready_state.count "NonRAID") ∨
      (command = "ConvertToNonRAID" ∧ checkMode ∧ 0 < pd_ready_state.count "Ready") then
    .exit CHANGES_FOUND true false
  else if (command = "ConvertToRAID" ∧ checkMode ∧
        pd_ready_state.length = pd_ready_state.count "Ready") ∨
      (command = "ConvertToRAID" ∧ ¬checkMode ∧
        pd_ready_state.length = pd_ready_state.count "Ready") ∨
      (command = "ConvertToNonRAID" ∧ checkMode ∧
        pd_ready_state.length = pd_ready_state.count "NonRAID") ∨
      (command = "ConvertToNonRAID" ∧ ¬checkMode ∧
        pd_ready_state.length = pd_ready_state.count "NonRAID") then
    .exit NO_CHANGES_FOUND false false
  else
    .post command [("PDArray", JVal.l target)]

/-- `target_identify_pattern(module, redfish_obj)` from the source, for
`command ∈ {BlinkTarget, UnBlinkTarget}`.  The payload defaults to
`{"TargetFQDD": None}` and is overwritten from `target[0]`/`volume_id[0]`.
Indexing an empty list raises `IndexError`, which `main` does not catch, so
the module crashes before the check-mode exit is reached. -/
def target_identify_pattern (checkMode : Bool) (command : String)
    (target volume : Option (List String)) : Outcome :=
  let payloadE : Except Outcome (List (String × JVal)) :=
    match target, volume with
    | some t, none =>
      match t.head? with
      | some x => .ok [("TargetFQDD", JVal.s x)]
      | none => .error (.crash "IndexError")
    | none, some v =>
      match v.head? with
      | some x => .ok [("TargetFQDD", JVal.s x)]
      | none => .error (.crash "IndexError")
    | some t, some _ =>
      match t.head? with
      | some x => .ok [("TargetFQDD", JVal.s x)]
      | none => .error (.crash "IndexError")
    | none, none => .ok [("TargetFQDD", JVal.null)]
  match payloadE with
  | .error o => o
  | .ok payload =>
    if checkMode then
      .exit CHANGES_FOUND true false
    else
      .post command payload

/-- `lock_virtual_disk(module, redfish_obj)` from the source.  The loop over
`Links.Drives` fails on the first drive whose `EncryptionAbility` is not
`SelfEncryptingDrive`; only afterwards is `LockStatus` consulted. -/
def lock_virtual_disk (checkMode : Bool) (volume_id : String)
    (vol : VolumeSnapshot) : Outcome :=
  if vol.memberEncryption.any (fun e => !(e == "SelfEncryptingDrive")) then
    .exit PHYSICAL_DISK_ERR false true
  else if vol.lockStatus = "Unlocked" ∧ checkMode then
    .exit CHANGES_FOUND true false
  else if vol.lockStatus = "Locked" then
    .exit NO_CHANGES_FOUND false false
  else
    .post "LockVirtualDisk" [("TargetFQDD", JVal.s volume_id)]

/-- `OCE_MIN_PD_RAID_MAPPING` from the source; `none` models a `KeyError`
lookup of an unmapped RAID type. -/
def OCE_MIN_PD_RAID_MAPPING : String → Option Nat
  | "RAID0" => some 1
  | "RAID5" => some 1
  | "RAID6" => some 1
  | "RAID10" => some 2
  | _ => none

/-- `online_capacity_expansion(module, redfish_obj)` from the source.
`vol = none` models the `HTTPError` branch of the volume GET.  The Python
conditions short-circuit, so `OCE_MIN_PD_RAID_MAPPING[raid_type]` is only
evaluated (and can only raise `KeyError`, which `main` reports through
`fail_json(str(e))`) when `drives_to_add` is nonempty. -/
def online_capacity_expansion (checkMode : Bool) (volume_id : List String)
    (target : Option (List String)) (size : Option Int)
    (vol : Option VolumeSnapshot) : Outcome :=
  if volume_id.length ≠ 1 then
    .exit (TARGET_ERR_MSG "virtual drive") false true
  else
    match vol with
    | none => .exit (VD_ERROR_MSG (volume_id.headD "")) false true
    | some v =>
      if v.raidType = "RAID50" ∨ v.raidType = "RAID60" then
        .exit (OCE_RAID_TYPE_ERR v.raidType) false true
      else
        match target with
        | some tgt =>
          if tgt = [] then
            .exit OCE_TARGET_EMPTY false true
          else if v.raidType = "RAID1" then
            .exit OCE_TARGET_RAID1_ERR false true
          else
            let drives_to_add := tgt.filter (fun d => !(v.memberDrives.contains d))
            match OCE_MIN_PD_RAID_MAPPING v.raidType with
            | some minPd =>
              if checkMode ∧ drives_to_add ≠ [] ∧ drives_to_add.length % minPd = 0 then
                .exit CHANGES_FOUND true false
              else if drives_to_add.length = 0 ∨ drives_to_add.length % minPd ≠ 0 then
                .exit NO_CHANGES_FOUND false false
              else
                .post "OnlineCapacityExpansion"
                  [("TargetFQDD", JVal.s (volume_id.headD "")),
                   ("PDArray", JVal.l drives_to_add)]
            | none =>
              if drives_to_add = [] then
                .exit NO_CHANGES_FOUND false false
              else
                .exit (pyKeyError v.raidType) false true
        | none =>
          match size with
          | some sz =>
            if sz ≠ 0 then
              let vd_size_MB : Nat := v.capacityBytes / (1024 * 1024)
              if sz - (vd_size_MB : Int) < 100 then
                .exit (OCE_SIZE_100MB vd_size_MB) false true
              else
                .post "OnlineCapacityExpansion"
                  [("TargetFQDD", JVal.s (volume_id.headD "")), ("Size", JVal.i sz)]
            else
              .post "OnlineCapacityExpansion" []
          | none => .post "OnlineCapacityExpansion" []

/-! ## Attribute-settings engine -/

/-- Association-list lookup, modelling a Python dict read (keys are assumed
distinct, as in a dict). -/
def alookup (m : List (String × String)) (k : String) : Option String :=
  (m.find? (fun p => p.1 == k)).map Prod.snd

/-- Python truthiness of `dict.get(key)` for a string-valued attribute:
the key is absent, or present with an empty value, exactly when falsy. -/
def truthy : Option String → Bool
  | none => false
  | some v => !(v == "")

/-- Leading-run test on character lists (needle, haystack). -/
def charsLeading : List Char → List Char → Bool
  | [], _ => true
  | _ :: _, [] => false
  | a :: as, b :: bs => a == b && charsLeading as bs

/-- Occurs-anywhere test on character lists (needle, haystack). -/
def charsInside (n : List Char) : List Char → Bool
  | [] => charsLeading n []
  | b :: bs => charsLeading n (b :: bs) || charsInside n bs

/-- Python `needle in hay` on strings. -/
def pyIn (needle hay : String) : Bool := charsInside needle.data hay.data

/-- Python `s.endswith(suffix)`. -/
def pyEndsWith (s suffix : String) : Bool :=
  charsLeading suffix.data.reverse s.data.reverse

/-- Lexicographic code-point order on character lists. -/
def charsLt : List Char → List Char → Bool
  | [], [] => false
  | [], _ :: _ => true
  | _ :: _, [] => false
  | a :: as, b :: bs => a < b || (a == b && charsLt as bs)

/-- Python `a < b` on strings (lexicographic by code point). -/
def pyLt (a b : String) : Bool := charsLt a.data b.data

/-- `validate_time(module, redfish_obj, mtime)` from the source.
`curr_time` and `date_offset` are `DateTime` / `DateTimeLocalOffset` from
the manager resource; the comparisons are Python string comparisons.
Returns the failure exit, or `none` when both checks pass. -/
def validate_time (mtime curr_time date_offset : String) : Option Outcome :=
  if pyEndsWith mtime date_offset = false then
    some (.statusExit (MAINTENANCE_OFFSET date_offset))
  else if pyLt mtime curr_time then
    some (.statusExit MAINTENANCE_TIME)
  else
    none

/-- `get_redfish_apply_time(module, redfish_obj, apply_time, time_settings)`
from the source.  `time_settings` is the advertised
`SupportedApplyTimes` list; `mw_start`/`mw_duration` are the
`maintenance_window` parameters.  Note the code validates membership in
`time_settings` only for apply times containing `"Maintenance"`, and skips
every check when `time_settings` is empty. -/
def get_redfish_apply_time (apply_time : String) (time_settings : List String)
    (mw_start : String) (mw_duration : Int) (curr_time date_offset : String) :
    Except Outcome (List (String × JVal)) :=
  if time_settings ≠ [] then
    if pyIn "Maintenance" apply_time then
      if ¬(apply_time ∈ time_settings) then
        .error (.statusExit (UNSUPPORTED_APPLY_TIME apply_time))
      else
        match validate_time mw_start curr_time date_offset with
        | some o => .error o
        | none =>
          .ok [("ApplyTime", JVal.s apply_time),
               ("MaintenanceWindowStartTime", JVal.s mw_start),
               ("MaintenanceWindowDurationInSeconds", JVal.i mw_duration)]
    else
      .ok [("ApplyTime", JVal.s apply_time)]
  else
    .ok []

/-- `check_attr_exists(module, curr_attr, inp_attr)` from the source.
The loop collects, in input order, the requested names absent from the
current attribute map (`invalid_attr`) and the present-but-different pairs
(`pending_attr`); the `diff` flag is set exactly when the latter is
nonempty. -/
def check_attr_exists (checkMode : Bool) (curr_attr inp_attr : List (String × String)) :
    Except Outcome (List (String × String)) :=
  let invalid_attr := (inp_attr.filter (fun p => (alookup curr_attr p.1).isNone)).map Prod.fst
  let pending_attr := inp_attr.filter (fun p =>
    match alookup curr_attr p.1 with
    | some v => !(v == p.2)
    | none => false)
  if invalid_attr ≠ [] then
    .error (.exit (INVALID_ATTRIBUTES invalid_attr) false true)
  else if pending_attr ≠ [] ∧ checkMode then
    .error (.exit CHANGES_FOUND true false)
  else if pending_attr = [] then
    .error (.exit NO_CHANGES_FOUND false false)
  else
    .ok pending_attr

/-- `set_attributes(module, redfish_obj)` (together with the portion of
`apply_attributes` that runs before the `PATCH`) from the source.
`inp_attr` is the `attributes` parameter; `curr_attr` is
`Oem.Dell.DellStorageController` of the controller resource;
`time_settings` is `@Redfish.Settings.SupportedApplyTimes`.  The HBA-mode
guard tests Python truthiness of `inp_attr.get("ControllerMode")`. -/
def set_attributes (checkMode : Bool) (inp_attr : List (String × String))
    (apply_time mw_start : String) (mw_duration : Int)
    (curr_attr : List (String × String)) (time_settings : List String)
    (curr_time date_offset : String) : Outcome :=
  if truthy (alookup inp_attr "ControllerMode") ∧ 1 < inp_attr.length then
    .exit HBA_MODE false true
  else
    match check_attr_exists checkMode curr_attr inp_attr with
    | .error o => o
    | .ok pending =>
      match get_redfish_apply_time apply_time time_settings mw_start mw_duration
          curr_time date_offset with
      | .error o => o
      | .ok time_set => .patch pending time_set

/-! ## Job-wait outcome normalization -/

/-- The polled job payload, reduced to the field `main` inspects. -/
structure JobData where
  jobState : String
deriving DecidableEq, Repr

/-- The final `module.exit_json` record of the command path of `main` when
`job_wait` is set: message, the job handle (`task`), the job status payload
and the `changed`/`failed` flags. -/
structure TaskExit where
  msg : String
  taskId : String
  taskUri : String
  status : JobData
  changed : Bool
  failed : Bool
deriving DecidableEq, Repr

/-- The command-path tail of `main` for `job_wait=true`, given the job data
observed by `wait_for_job_completion`: `JobState == "Failed"` yields
`changed=False, failed=True`, anything else `changed=True, failed=False`;
the job handle and status payload are always attached. -/
def main_job_wait_exit (command job_id job_uri : String) (job_data : JobData) : TaskExit :=
  if job_data.jobState = "Failed" then
    { msg := JOB_COMPLETION command, taskId := job_id, taskUri := job_uri,
      status := job_data, changed := false, failed := true }
  else
    { msg := JOB_COMPLETION command, taskId := job_id, taskUri := job_uri,
      status := job_data, changed := true, failed := false }

/-! ## Helper lemmas -/

/-- Claim C4 counterexample: a requested size of 0 has an excess far below
100 MB over a 362,000 MB volume, yet the Python truthiness test `elif
size:` skips the minimum-size check and the expansion POST is issued (with
a null payload) instead of the claimed hard failure; and a RAID50 volume
with an excess of at least 100 MB is not submitted but fails with the
RAID-type error. -/
theorem C4_counterexample :
    online_capacity_expansion false ["Disk.Virtual.0:RAID.Integrated.1-1"] none (some 0)
        (some { raidType := "RAID0", lockStatus := "Unlocked",
                capacityBytes := 362000 * 1024 * 1024,
                memberDrives := [], memberEncryption := [] }) =
      Outcome.post "OnlineCapacityExpansion" [] ∧
    online_capacity_expansion false ["Disk.Virtual.0:RAID.Integrated.1-1"] none (some 362785)
        (some { raidType := "RAID50", lockStatus := "Unlocked", capacityBytes := 0,
                memberDrives := [], memberEncryption := [] }) =
      Outcome.exit (OCE_RAID_TYPE_ERR "RAID50") false true := by
  exact ⟨rfl, rfl⟩

/-- Claim C4 (amended): OnlineCapacityExpansion by size — provided the
requested size is nonzero (truthy) and the volume's RAID type is neither
RAID50 nor RAID60 — computes the current size in MB as `CapacityBytes`
floor-divided by `1024 * 1024`; a requested size whose excess over that is
below 100 MB is a hard failure without submission, and an excess of at
least 100 MB is submitted. -/
theorem C4_oce_size (checkMode : Bool) (vid : String) (sz : Int) (v : VolumeSnapshot)
    (h50 : v.raidType ≠ "RAID50") (h60 : v.raidType ≠ "RAID60") (hs : sz ≠ 0) :
    (sz - ((v.capacityBytes / (1024 * 1024) : Nat) : Int) < 100 →
      online_capacity_expansion checkMode [vid] none (some sz) (some v) =
        .exit (OCE_SIZE_100MB (v.capacityBytes / (1024 * 1024))) false true) ∧
    (100 ≤ sz - ((v.capacityBytes / (1024 * 1024) : Nat) : Int) →
      online_capacity_expansion checkMode [vid] none (some sz) (some v) =
        .post "OnlineCapacityExpansion"
          [("TargetFQDD", JVal.s vid), ("Size", JVal.i sz)]) := by
  constructor
  · intro hlt
    simp [online_capacity_expansion, h50, h60, hs, hlt]
    omega
  · intro hge
    have hnlt : ¬(sz - ((v.capacityBytes / (1024 * 1024) : Nat) : Int) < 100) := not_lt.mpr hge
    simp [online_capacity_expansion, h50, h60, hs, hnlt]
    omega

/-- Witness for C4 at the documented example: current capacity 362,000 MB;
a request of 362,050 MB is rejected and 362,785 MB is submitted. -/
theorem C4_witness :
    online_capacity_expansion false ["Disk.Virtual.0:RAID.Integrated.1-1"] none (some 362050)
        (some { raidType := "RAID0", lockStatus := "Unlocked",
                capacityBytes := 362000 * 1024 * 1024 + 12345,
                memberDrives := [], memberEncryption := [] }) =
      Outcome.exit (OCE_SIZE_100MB 362000) false true ∧
    online_capacity_expansion false ["Disk.Virtual.0:RAID.Integrated.1-1"] none (some 362785)
        (some { raidType := "RAID0", lockStatus := "Unlocked",
                capacityBytes := 362000 * 1024 * 1024 + 12345,
                memberDrives := [], memberEncryption := [] }) =
      Outcome.post "OnlineCapacityExpansion"
        [("TargetFQDD", JVal.s "Disk.Virtual.0:RAID.Integrated.1-1"),
         ("Size", JVal.i 362785)] := by
  constructor
  · exact (C4_oce_size false "Disk.Virtual.0:RAID.Integrated.1-1" 362050
      { raidType := "RAID0", lockStatus := "Unlocked",
        capacityBytes := 362000 * 1024 * 1024 + 12345,
        memberDrives := [], memberEncryption := [] }
      (by decide) (by decide) (by decide)).1 (by decide)
  · exact (C4_oce_size false "Disk.Virtual.0:RAID.Integrated.1-1" 362785
      { raidType := "RAID0", lockStatus := "Unlocked",
        capacityBytes := 362000 * 1024 * 1024 + 12345,
        memberDrives := [], memberEncryption := [] }
      (by decide) (by decide) (by decide)).2 (by decide)

/-- Claim C9 (confirmed): on the command path with `job_wait`, once the
polled job is terminal the normalized outcome has `failed=true` with
`changed=false` exactly when the job state is `Failed`, has `changed=true`
with `failed=false` when it completed, and carries the job handle (id and
uri) and the job status payload in both cases. -/
theorem C9_job_wait_outcome (command job_id job_uri : String) (jd : JobData)
    (hterm : jd.jobState = "Completed" ∨ jd.jobState = "Failed") :
    ((main_job_wait_exit command job_id job_uri jd).failed = true ∧
        (main_job_wait_exit command job_id job_uri jd).changed = false ↔
      jd.jobState = "Failed") ∧
    (jd.jobState = "Completed" →
      (main_job_wait_exit command job_id job_uri jd).changed = true ∧
        (main_job_wait_exit command job_id job_uri jd).failed = false) ∧
    (main_job_wait_exit command job_id job_uri jd).taskId = job_id ∧
    (main_job_wait_exit command job_id job_uri jd).taskUri = job_uri ∧
    (main_job_wait_exit command job_id job_uri jd).status = jd := by
  rcases hterm with hc | hf
  · simp [main_job_wait_exit, hc]
  · simp [main_job_wait_exit, hf]

/-- Witness for C9: a completed and a failed polled job. -/
theorem C9_witness :
    ((main_job_wait_exit "AssignSpare" "JID_1" "/redfish/v1/Jobs/JID_1"
        { jobState := "Completed" }).changed = true ∧
      (main_job_wait_exit "AssignSpare" "JID_1" "/redfish/v1/Jobs/JID_1"
        { jobState := "Completed" }).failed = false) ∧
    ((main_job_wait_exit "AssignSpare" "JID_2" "/redfish/v1/Jobs/JID_2"
        { jobState := "Failed" }).failed = true ∧
      (main_job_wait_exit "AssignSpare" "JID_2" "/redfish/v1/Jobs/JID_2"
        { jobState := "Failed" }).changed = false) := by
  constructor
  · exact (C9_job_wait_outcome "AssignSpare" "JID_1" "/redfish/v1/Jobs/JID_1"
      { jobState := "Completed" } (Or.inl rfl)).2.1 rfl
  · exact ((C9_job_wait_outcome "AssignSpare" "JID_2" "/redfish/v1/Jobs/JID_2"
      { jobState := "Failed" } (Or.inr rfl)).1).mpr rfl

/-- Claim C10 (confirmed): `lock_virtual_disk` checks the member drives
before the lock status; any volume with a member drive whose
`EncryptionAbility` is not `SelfEncryptingDrive` fails with the
volume-not-encryption-capable message, in either mode and for every lock
status (in particular, a Locked such volume is never a no-change). -/
theorem C10_lock_encryption_precedence (checkMode : Bool) (vid : String)
    (v : VolumeSnapshot) (h : ∃ e ∈ v.memberEncryption, e ≠ "SelfEncryptingDrive") :
    lock_virtual_disk checkMode vid v = .exit PHYSICAL_DISK_ERR false true := by
  have hb : v.memberEncryption.any (fun e => !(e == "SelfEncryptingDrive")) = true := by
    rcases h with ⟨e, he, hne⟩
    simp only [List.any_eq_true]
    exact ⟨e, he, by simpa using hne⟩
  simp [lock_virtual_disk, hb]

/-- Witness for C10: a Locked volume with one non-self-encrypting member
drive still fails rather than reporting no change. -/
theorem C10_witness :
    lock_virtual_disk true "Disk.Virtual.0:RAID.SL.3-1"
        { raidType := "RAID0", lockStatus := "Locked", capacityBytes := 0,
          memberDrives := ["Disk.Bay.0"], memberEncryption := ["None"] } =
      Outcome.exit PHYSICAL_DISK_ERR false true :=
  C10_lock_encryption_precedence true "Disk.Virtual.0:RAID.SL.3-1"
    { raidType := "RAID0", lockStatus := "Locked", capacityBytes := 0,
      memberDrives := ["Disk.Bay.0"], memberEncryption := ["None"] }
    ⟨"None", by decide, by decide⟩

/-- Claim C2 (code bug): the module declares check-mode support, yet with
check mode on, a snapshot outside the enumerated predicate values falls
through every check-mode branch and issues the real action POST: an
AssignSpare against a drive whose `HotspareType` is `"Chassis"` (a valid
Redfish hot-spare value the code never enumerates), and a ConvertToRAID
against a drive whose `RaidStatus` is `"Online"` (neither `"NonRAID"` nor
`"Ready"`), both submit while check mode is enabled. -/
theorem C2_check_mode_posts :
    hot_spare_config true "AssignSpare" "Disk.Bay.0:Enclosure.Internal.0-1:RAID.Slot.1-1"
        none (some { hotspareType := "Chassis", raidStatus := "Online" }) =
      Outcome.post "AssignSpare"
        [("TargetFQDD", JVal.s "Disk.Bay.0:Enclosure.Internal.0-1:RAID.Slot.1-1")] ∧
    convert_raid_status true "ConvertToRAID"
        ["Disk.Bay.1:Enclosure.Internal.0-1:RAID.Slot.1-1"] ["Online"] =
      Outcome.post "ConvertToRAID"
        [("PDArray", JVal.l ["Disk.Bay.1:Enclosure.Internal.0-1:RAID.Slot.1-1"])] := by
  exact ⟨rfl, rfl⟩

/-- Claim C5 counterexample: a request with `ControllerMode` present but
holding a falsy (empty) value alongside another attribute is not stopped by
the HBA-mode guard — the truthiness test `inp_attr.get("ControllerMode")`
skips it and the call proceeds to the diff (here, a check-mode
changes-found exit). -/
theorem C5_counterexample :
    set_attributes true [("ControllerMode", ""), ("CopybackMode", "Off")] "Immediate" "" 900
        [("ControllerMode", "RAID"), ("CopybackMode", "On")] ["Immediate"]
        "2022-01-01T00:00:00-05:00" "-05:00" =
      Outcome.exit CHANGES_FOUND true false ∧
    set_attributes true [("ControllerMode", ""), ("CopybackMode", "Off")] "Immediate" "" 900
        [("ControllerMode", "RAID"), ("CopybackMode", "On")] ["Immediate"]
        "2022-01-01T00:00:00-05:00" "-05:00" ≠
      Outcome.exit HBA_MODE false true := by
  exact ⟨rfl, by decide⟩

/-- Claim C5 (amended): whenever `ControllerMode` is requested with a
truthy (non-empty) value and any other attribute is present in the same
call, the module fails with the HBA-mode-conflict message — before any
diff computation or settings PATCH. -/
theorem C5_hba_amended (cm : Bool) (inp curr : List (String × String))
    (apply_time mw_start : String) (mw_duration : Int) (ts : List String)
    (ct off v : String)
    (h1 : alookup inp "ControllerMode" = some v) (h2 : v ≠ "")
    (h3 : 1 < inp.length) :
    set_attributes cm inp apply_time mw_start mw_duration curr ts ct off =
      .exit HBA_MODE false true := by
  have ht : truthy (alookup inp "ControllerMode") = true := by
    rw [h1]
    simpa [truthy] using h2
  simp [set_attributes, ht, h3]

/-- Witness for C5 (amended): requesting `ControllerMode: HBA` together
with `CopybackMode: Off` fails with the HBA-mode conflict. -/
theorem C5_witness :
    set_attributes false [("ControllerMode", "HBA"), ("CopybackMode", "Off")] "Immediate" ""
        900 [("ControllerMode", "RAID"), ("CopybackMode", "On")] ["Immediate"]
        "2022-01-01T00:00:00-05:00" "-05:00" =
      Outcome.exit HBA_MODE false true :=
  C5_hba_amended false [("ControllerMode", "HBA"), ("CopybackMode", "Off")]
    [("ControllerMode", "RAID"), ("CopybackMode", "On")] "Immediate" "" 900 ["Immediate"]
    "2022-01-01T00:00:00-05:00" "-05:00" "HBA" (by decide) (by decide) (by decide)

/-- Claim C6 counterexample: a request containing an attribute name absent
from the current map (`Bogus`) together with a truthy `ControllerMode` is
stopped by the HBA-mode guard first, so the module reports the HBA-mode
conflict and not the invalid-attribute error the claim requires. -/
theorem C6_counterexample :
    set_attributes false [("ControllerMode", "HBA"), ("Bogus", "x")] "Immediate" "" 900
        [("ControllerMode", "RAID")] [] "2022-01-01T00:00:00-05:00" "-05:00" =
      Outcome.exit HBA_MODE false true ∧
    set_attributes false [("ControllerMode", "HBA"), ("Bogus", "x")] "Immediate" "" 900
        [("ControllerMode", "RAID")] [] "2022-01-01T00:00:00-05:00" "-05:00" ≠
      Outcome.exit (INVALID_ATTRIBUTES ["Bogus"]) false true := by
  exact ⟨rfl, by decide⟩

/-- Claim C6 (amended): provided the request does not trigger the
HBA-mode-conflict guard, any request containing names absent from the
controller's current attribute map fails with the invalid-attribute error
listing all offending names at once (in request order), before any
settings PATCH. -/
theorem C6_invalid_attrs_amended (cm : Bool) (inp curr : List (String × String))
    (apply_time mw_start : String) (mw_duration : Int) (ts : List String)
    (ct off : String)
    (hguard : ¬(truthy (alookup inp "ControllerMode") = true ∧ 1 < inp.length))
    (hinv : (inp.filter (fun p => (alookup curr p.1).isNone)).map Prod.fst ≠ []) :
    set_attributes cm inp apply_time mw_start mw_duration curr ts ct off =
      .exit
        (INVALID_ATTRIBUTES ((inp.filter (fun p => (alookup curr p.1).isNone)).map Prod.fst))
        false true := by
  rw [set_attributes, if_neg hguard]
  rw [check_attr_exists, if_pos hinv]

/-- Witness for C6 (amended): two unknown attribute names are both listed
in the failure message. -/
theorem C6_witness :
    set_attributes false [("CheckConsistencyMode", "Normal"), ("Bogus", "x"), ("Bogus2", "y")]
        "Immediate" "" 900 [("CheckConsistencyMode", "StopOnError")] ["Immediate"]
        "2022-01-01T00:00:00-05:00" "-05:00" =
      Outcome.exit (INVALID_ATTRIBUTES ["Bogus", "Bogus2"]) false true := by
  have h := C6_invalid_attrs_amended false
    [("CheckConsistencyMode", "Normal"), ("Bogus", "x"), ("Bogus2", "y")]
    [("CheckConsistencyMode", "StopOnError")] "Immediate" "" 900 ["Immediate"]
    "2022-01-01T00:00:00-05:00" "-05:00" (by decide) (by decide)
  exact h

/-- Claim C7 counterexample: a non-maintenance apply time (`OnReset`) that
is absent from the advertised supported set is not rejected — the settings
PATCH is submitted carrying it, refuting the claim that every unsupported
apply-time value is rejected before submission. -/
theorem C7_counterexample :
    set_attributes false [("CopybackMode", "Off")] "OnReset" "" 900 [("CopybackMode", "On")]
        ["Immediate", "AtMaintenanceWindowStart"] "2022-01-01T00:00:00-05:00" "-05:00" =
      Outcome.patch [("CopybackMode", "Off")] [("ApplyTime", JVal.s "OnReset")] := by
  exact rfl

/-- Claim C7 (amended): when the advertised supported set is nonempty, a
maintenance-window apply time absent from it is rejected; and for a
supported maintenance-window apply time the start time must end with
exactly the remote offset and must not be (string-)earlier than the remote
current time — each violation yields its failure outcome before the
settings PATCH.  Non-maintenance apply times are passed through without
validation. -/
theorem C7_apply_time_amended :
    (∀ (apply_time : String) (ts : List String) (mws : String) (mwd : Int) (ct off : String),
      ts ≠ [] → pyIn "Maintenance" apply_time = true → apply_time ∉ ts →
      get_redfish_apply_time apply_time ts mws mwd ct off =
        .error (.statusExit (UNSUPPORTED_APPLY_TIME apply_time))) ∧
    (∀ (apply_time : String) (ts : List String) (mws : String) (mwd : Int) (ct off : String),
      ts ≠ [] → pyIn "Maintenance" apply_time = true → apply_time ∈ ts →
      pyEndsWith mws off = false →
      get_redfish_apply_time apply_time ts mws mwd ct off =
        .error (.statusExit (MAINTENANCE_OFFSET off))) ∧
    (∀ (apply_time : String) (ts : List String) (mws : String) (mwd : Int) (ct off : String),
      ts ≠ [] → pyIn "Maintenance" apply_time = true → apply_time ∈ ts →
      pyEndsWith mws off = true → pyLt mws ct = true →
      get_redfish_apply_time apply_time ts mws mwd ct off =
        .error (.statusExit MAINTENANCE_TIME)) := by
  refine ⟨?_, ?_, ?_⟩
  · intro apply_time ts mws mwd ct off h1 h2 h3
    simp [get_redfish_apply_time, h1, h2, h3]
  · intro apply_time ts mws mwd ct off h1 h2 h3 h4
    simp [get_redfish_apply_time, validate_time, h1, h2, h3, h4]
  · intro apply_time ts mws mwd ct off h1 h2 h3 h4 h5
    simp [get_redfish_apply_time, validate_time, h1, h2, h3, h4, h5]

/-- Witness for C7 (amended): the documented maintenance-window example:
an unsupported maintenance apply time is rejected, a wrong offset is
rejected, and a start time in the remote past is rejected. -/
theorem C7_witness :
    get_redfish_apply_time "AtMaintenanceWindowStart" ["Immediate", "OnReset"]
        "2022-09-30T05:15:40-05:00" 1200 "2022-01-01T00:00:00-05:00" "-05:00" =
      Except.error (Outcome.statusExit (UNSUPPORTED_APPLY_TIME "AtMaintenanceWindowStart")) ∧
    get_redfish_apply_time "AtMaintenanceWindowStart" ["AtMaintenanceWindowStart"]
        "2022-09-30T05:15:40-06:00" 1200 "2022-01-01T00:00:00-05:00" "-05:00" =
      Except.error (Outcome.statusExit (MAINTENANCE_OFFSET "-05:00")) ∧
    get_redfish_apply_time "AtMaintenanceWindowStart" ["AtMaintenanceWindowStart"]
        "2021-09-30T05:15:40-05:00" 1200 "2022-01-01T00:00:00-05:00" "-05:00" =
      Except.error (Outcome.statusExit MAINTENANCE_TIME) := by
  refine ⟨?_, ?_, ?_⟩
  · exact C7_apply_time_amended.1 "AtMaintenanceWindowStart" ["Immediate", "OnReset"]
      "2022-09-30T05:15:40-05:00" 1200 "2022-01-01T00:00:00-05:00" "-05:00"
      (by decide) (by decide) (by decide)
  · exact C7_apply_time_amended.2.1 "AtMaintenanceWindowStart" ["AtMaintenanceWindowStart"]
      "2022-09-30T05:15:40-06:00" 1200 "2022-01-01T00:00:00-05:00" "-05:00"
      (by decide) (by decide) (by decide) (by decide)
  · exact C7_apply_time_amended.2.2 "AtMaintenanceWindowStart" ["AtMaintenanceWindowStart"]
      "2021-09-30T05:15:40-05:00" 1200 "2022-01-01T00:00:00-05:00" "-05:00"
      (by decide) (by decide) (by decide) (by decide) (by decide)

/-- Claim C8 counterexample: ReKey against a controller whose
`SecurityStatus` is `EncryptionNotCapable` fails with the encryption error
even in check mode — it neither reports changes-found nor issues a POST,
so ReKey is not always-mutating over every snapshot state. -/
theorem C8_counterexample :
    ctrl_key true "ReKey" "SEKM" "RAID.Slot.1-1" none none none
        { securityStatus := "EncryptionNotCapable", keyId := none } =
      Outcome.exit (ENCRYPT_ERR_MSG "RAID.Slot.1-1") false true ∧
    ctrl_key true "ReKey" "SEKM" "RAID.Slot.1-1" none none none
        { securityStatus := "EncryptionNotCapable", keyId := none } ≠
      Outcome.exit CHANGES_FOUND true false := by
  exact ⟨rfl, by decide⟩

/-- Claim C8 (amended): ReKey — provided the controller snapshot is not
`EncryptionNotCapable` — and BlinkTarget/UnBlinkTarget — provided the
indexed identifier list (`target`, or `volume_id` when no target is given)
is nonempty, so that `target[0]`/`volume_id[0]` does not raise — always
exit changes-found with `changed=true` in check mode without posting, and
always issue the action POST outside check mode. -/
theorem C8_always_mutating_amended :
    (∀ (mode cid : String) (k kid ok : Option String) (ctrl : CtrlSnapshot),
      ctrl.securityStatus ≠ "EncryptionNotCapable" →
      ctrl_key true "ReKey" mode cid k kid ok ctrl = .exit CHANGES_FOUND true false ∧
      ∃ p, ctrl_key false "ReKey" mode cid k kid ok ctrl = .post "ReKey" p) ∧
    (∀ (cmd : String), cmd = "BlinkTarget" ∨ cmd = "UnBlinkTarget" →
      ∀ (tgt vol : Option (List String)),
        (∀ t, tgt = some t → t ≠ []) →
        (tgt = none → ∀ v, vol = some v → v ≠ []) →
        target_identify_pattern true cmd tgt vol = .exit CHANGES_FOUND true false ∧
        ∃ p, target_identify_pattern false cmd tgt vol = .post cmd p) := by
  constructor
  · intro mode cid k kid ok ctrl h1
    constructor
    · simp [ctrl_key, h1]
    · by_cases hm : mode = "LKM"
      · exact ⟨[("TargetFQDD", JVal.s cid), ("Mode", JVal.s mode), ("NewKey", optVal k),
          ("Keyid", optVal kid), ("OldKey", optVal ok)], by simp [ctrl_key, h1, hm]⟩
      · exact ⟨[("TargetFQDD", JVal.s cid), ("Mode", JVal.s mode)],
          by simp [ctrl_key, h1, hm]⟩
  · intro cmd _ tgt vol htgt hvol
    rcases tgt with _ | t
    · rcases vol with _ | v
      · exact ⟨rfl, ⟨[("TargetFQDD", JVal.null)], rfl⟩⟩
      · rcases v with _ | ⟨x, xs⟩
        · exact absurd rfl (hvol rfl _ rfl)
        · exact ⟨rfl, ⟨[("TargetFQDD", JVal.s x)], rfl⟩⟩
    · rcases t with _ | ⟨x, xs⟩
      · exact absurd rfl (htgt _ rfl)
      · rcases vol with _ | v
        · exact ⟨rfl, ⟨[("TargetFQDD", JVal.s x)], rfl⟩⟩
        · exact ⟨rfl, ⟨[("TargetFQDD", JVal.s x)], rfl⟩⟩

/-- Witness for C8 (amended): concrete ReKey and BlinkTarget invocations
in and out of check mode. -/
theorem C8_witness :
    (ctrl_key true "ReKey" "SEKM" "RAID.Slot.1-1" none none none
        { securityStatus := "SecurityKeyAssigned", keyId := some "kid" } =
      Outcome.exit CHANGES_FOUND true false ∧
      ∃ p, ctrl_key false "ReKey" "SEKM" "RAID.Slot.1-1" none none none
        { securityStatus := "SecurityKeyAssigned", keyId := some "kid" } =
          Outcome.post "ReKey" p) ∧
    (target_identify_pattern true "BlinkTarget"
        (some ["Disk.Bay.0:Enclosure.Internal.0-1:RAID.Slot.1-1"]) none =
      Outcome.exit CHANGES_FOUND true false ∧
      ∃ p, target_identify_pattern false "BlinkTarget"
        (some ["Disk.Bay.0:Enclosure.Internal.0-1:RAID.Slot.1-1"]) none =
          Outcome.post "BlinkTarget" p) := by
  constructor
  · exact C8_always_mutating_amended.1 "SEKM" "RAID.Slot.1-1" none none none
      { securityStatus := "SecurityKeyAssigned", keyId := some "kid" } (by decide)
  · exact C8_always_mutating_amended.2 "BlinkTarget" (Or.inl rfl)
      (some ["Disk.Bay.0:Enclosure.Internal.0-1:RAID.Slot.1-1"]) none
      (by intro t ht; cases ht; decide) (fun h => nomatch h)

end IdracStorage
